import Mathlib

/-!
Verification of the ADW (AI Developer Workflow) orchestration layer of this
repository: the agent invoker retry logic (adws/adw_modules/agent.py), the
test-resolution loop and test-ensurance pipeline (adws/adw_test.py), the
issue-comment formatting used by the phase scripts, and the pattern-frequency
tracker (adws/adw_modules/test_doctor.py).

Each Python function is shallowly embedded as an executable Lean definition.
External effects (subprocess spawns, the filesystem, timestamps, the stubbed
AI agent) are passed in explicitly as function parameters, so that the control
flow and data flow of the source are reproduced exactly while the environment
stays abstract.
-/

/- ===================================================================
   Shared data model (adws/adw_modules/data_types.py).
   The data_types module itself is not part of the sources under
   verification; the field sets below are reconstructed from how the
   records are constructed and consumed in agent.py and adw_test.py
   (pydantic models with fields output/success/session_id,
   test_name/passed/error, and the E2E variant with status and
   screenshots).
   =================================================================== -/

/-- Result of one agent CLI invocation: `AgentPromptResponse(output, success,
session_id)` as constructed throughout agent.py. -/
structure AgentPromptResponse where
  output : String
  success : Bool
  session_id : Option String
deriving Repr, DecidableEq

/-- One unit-test outcome parsed from the test runner's JSON output:
`TestResult(test_name, passed, error)` as consumed in adw_test.py. -/
structure TestResult where
  test_name : String
  passed : Bool
  error : Option String
deriving Repr, DecidableEq

/-- One E2E test outcome: `E2ETestResult(test_name, status, test_path,
screenshots, error)` as constructed in adw_test.py. -/
structure E2ETestResult where
  test_name : String
  status : String
  test_path : String
  screenshots : List String
  error : Option String
deriving Repr, DecidableEq

/-- Modelled from the spec: data_types.py (not under src) gives E2ETestResult
a derived pass/fail view; the spec calls it "a named, pass/fail record", and
adw_test.py sets `status="failed"` on error paths and then branches on
`result.passed`, so `passed` holds exactly when the status field is
"passed". -/
def E2ETestResult.passed (r : E2ETestResult) : Bool :=
  r.status == "passed"

/-- Final report of the test-ensurance pipeline:
`TestEnsuranceReport(total_required, already_complete, created, augmented,
failed, all_passing)` as built in adw_test.py. -/
structure TestEnsuranceReport where
  total_required : Nat
  already_complete : Nat
  created : Nat
  augmented : Nat
  failed : Nat
  all_passing : Bool
deriving Repr, DecidableEq

/- ===================================================================
   Issue-message formatting (claim C5).
   =================================================================== -/

/-- The fixed bot marker `ADW_BOT_IDENTIFIER` from adw_modules/github.py;
its value is pinned by the repository's own unit test
adw_tests/test_format_issue_message.py (test_bot_identifier_value). -/
def ADW_BOT_IDENTIFIER : String := "[ADW-BOT]"

/-- The local `format_issue_message` defined in adws/adw_test.py lines
128-134.  It shadows the canonical function imported from
adw_modules.workflow_ops at the top of the same file, and produces the
`adw_id_agent_name[_session_id]: message` prefix WITHOUT the bot marker. -/
def adw_test_format_issue_message (adw_id agent_name message : String)
    (session_id : Option String) : String :=
  match session_id with
  | some sid => adw_id ++ "_" ++ agent_name ++ "_" ++ sid ++ ": " ++ message
  | none => adw_id ++ "_" ++ agent_name ++ ": " ++ message

/-- Modelled from the spec: the canonical `format_issue_message` lives in
adw_modules/utils.py, which is not under src.  The spec (section 6) says every
posted status message is "prefixed with a fixed bot marker followed by
run_id_agent_name[_session_id]: message", and the repository's unit test
adw_tests/test_format_issue_message.py asserts the exact formats
`[ADW-BOT] adw_id_agent_name: message` and
`[ADW-BOT] adw_id_agent_name_session_id: message`. -/
def utils_format_issue_message (adw_id agent_name message : String)
    (session_id : Option String) : String :=
  match session_id with
  | some sid =>
      ADW_BOT_IDENTIFIER ++ " " ++ adw_id ++ "_" ++ agent_name ++ "_" ++ sid
        ++ ": " ++ message
  | none =>
      ADW_BOT_IDENTIFIER ++ " " ++ adw_id ++ "_" ++ agent_name ++ ": " ++ message

/- ===================================================================
   Pattern-frequency tracker (claim C7),
   from adws/adw_modules/test_doctor.py lines 16-35.
   The tracker is a JSON object keyed by pattern id; it is modelled as a
   partial map `String → Option PatternRecord`.  `datetime.now()` is
   modelled as one timestamp parameter per call.
   =================================================================== -/

/-- One tracker record: `{count, first_seen, last_seen, status}` as created
by `update_pattern_tracker`. -/
structure PatternRecord where
  count : Nat
  first_seen : String
  last_seen : Option String
  status : String
deriving Repr, DecidableEq

/-- The tracker map: JSON object keyed by pattern id. -/
def Tracker : Type := String → Option PatternRecord

/-- Body of the `for match in pattern_matches` loop of
`update_pattern_tracker`: create the record if the pattern id is absent
(count 0, first_seen stamped now, status "active"), then increment the count
and stamp last_seen. -/
def updatePatternOne (now : String) (tracker : Tracker) (pattern_id : String) :
    Tracker :=
  let r : PatternRecord :=
    match tracker pattern_id with
    | none => { count := 0, first_seen := now, last_seen := none, status := "active" }
    | some r => r
  fun k =>
    if k == pattern_id then
      some { r with count := r.count + 1, last_seen := some now }
    else tracker k

/-- `update_pattern_tracker(pattern_matches)` (test_doctor.py lines 16-35):
loads the tracker, runs the per-match loop, saves.  Load/save are I/O
round-trips of the map itself, so the pure content is the fold below; each
match contributes its `pattern_id`. -/
def update_pattern_tracker (now : String) (tracker : Tracker)
    (pattern_matches : List String) : Tracker :=
  pattern_matches.foldl (updatePatternOne now) tracker

/-- Count stored for a pattern id, with absent records reading as 0. -/
def trackerCount (tracker : Tracker) (pattern_id : String) : Nat :=
  match tracker pattern_id with
  | none => 0
  | some r => r.count

/-- The empty tracker (no backing file yet: `load_tracker` returns `{}`). -/
def emptyTracker : Tracker := fun _ => none

/- ===================================================================
   External agent invoker (claims C2, C3, C4),
   from adws/adw_modules/agent.py.
   The environment of one CLI invocation (version probe, spawned process
   exit code and stderr, the parsed transcript and its raw text) is
   packaged in a CliWorld value; subprocess side effects are represented
   by the spawn count the functions return.
   =================================================================== -/

/-- One parsed line of the stream-json transcript, viewed as a JSON object.
Only the keys read by agent.py are modelled; a missing key is `none`,
matching Python's `dict.get` defaults (`type` default None, `subtype` "",
`is_error` False, `result` "", `session_id` None). -/
structure TranscriptRecord where
  type : Option String
  subtype : Option String
  is_error : Option Bool
  result : Option String
  session_id : Option String
deriving Repr, DecidableEq

/-- Environment of a single `prompt_claude_code` invocation. `probe_ok`
is the outcome of the `claude --version` probe (`False` both for a non-zero
probe exit and for FileNotFoundError); `transcript` is the list of
well-formed JSON lines of the output file (parse_jsonl_output skips
malformed lines); `raw_output` is the raw text of that file. -/
structure CliWorld where
  claude_path : String
  probe_ok : Bool
  exit_code : Nat
  stderr : String
  transcript : List TranscriptRecord
  raw_output : String
deriving Repr, DecidableEq

/-- `check_claude_installed()` (agent.py lines 104-116): returns an error
message naming the expected CLI path when the version probe fails, else
None. -/
def check_claude_installed (w : CliWorld) : Option String :=
  if w.probe_ok then none
  else some ("Error: Claude Code CLI is not installed. Expected at: "
    ++ w.claude_path)

/-- The result-record scan of `parse_jsonl_output` (agent.py lines 142-147):
walk the parsed messages in reverse and return the first whose "type" is
"result" (i.e. the last result-typed record), or None. -/
def findResultMessage (messages : List TranscriptRecord) :
    Option TranscriptRecord :=
  messages.reverse.find? (fun m => m.type == some "result")

/-- `prompt_claude_code(request)` (agent.py lines 269-358), paired with the
number of CLI processes it spawns.  Prompt saving, directory creation and
the JSONL-to-JSON sibling conversion are filesystem side effects with no
bearing on the returned response; the timeout/exception handlers are not
reachable in the modelled worlds, where the spawned process always yields
an exit code. -/
def prompt_claude_code_run (w : CliWorld) : AgentPromptResponse × Nat :=
  match check_claude_installed w with
  | some error_msg => ({ output := error_msg, success := false, session_id := none }, 0)
  | none =>
    if w.exit_code = 0 then
      match findResultMessage w.transcript with
      | some result_message =>
        if result_message.subtype.getD "" = "error_during_execution" then
          ({ output := "Error during execution: Agent encountered an error and did not return a result",
             success := false,
             session_id := result_message.session_id }, 1)
        else
          ({ output := result_message.result.getD "",
             success := !(result_message.is_error.getD false),
             session_id := result_message.session_id }, 1)
      | none =>
          ({ output := w.raw_output, success := true, session_id := none }, 1)
    else
      ({ output := "Claude Code error: " ++ w.stderr, success := false,
         session_id := none }, 1)

/-- The response of `prompt_claude_code` (spawn count projected away). -/
def prompt_claude_code (w : CliWorld) : AgentPromptResponse :=
  (prompt_claude_code_run w).1

/-- The delay-extension loop of `prompt_claude_code_with_retry` (agent.py
lines 240-241): `while len(retry_delays) < max_retries:
retry_delays.append(retry_delays[-1] + 2)`.  Each pass appends one entry, so
the loop runs exactly `max_retries - len(retry_delays)` times, which is the
structural fuel below.  Python raises IndexError on an empty list; the
model's `getLast?.getD 0` branch is only exercised for nonempty delay
lists. -/
def extendDelays (max_retries : Nat) (retry_delays : List Nat) : List Nat :=
  extendLoop (max_retries - retry_delays.length) retry_delays
where
  extendLoop : Nat → List Nat → List Nat
  | 0, ds => ds
  | k + 1, ds => extendLoop k (ds ++ [ds.getLast?.getD 0 + 2])

/-- Outcome of a retry loop: the returned response, how many times
`prompt_claude_code` was called, and the sleeps performed (in order). -/
structure RetryOutcome where
  response : AgentPromptResponse
  calls : Nat
  sleeps : List Nat
deriving Repr, DecidableEq

/-- The `for attempt in range(max_retries + 1)` loop of
`prompt_claude_code_with_retry` (agent.py lines 245-263), with the underlying
`prompt_claude_code` abstracted as `invoke : attempt ↦ response`.
`remaining` is the number of loop iterations left (`max_retries + 1 - attempt`
at every call); on a retry (attempt > 0) the loop first sleeps
`delays[attempt - 1]`; a successful response returns immediately; at the last
attempt the (failed) response is returned as is. -/
def retryLoop (invoke : Nat → AgentPromptResponse) (delays : List Nat)
    (attempt : Nat) : Nat → RetryOutcome
  | 0 =>
      { response := { output := "", success := false, session_id := none },
        calls := 0, sleeps := [] }
  | remaining + 1 =>
    let sleepsHere : List Nat :=
      if attempt > 0 then [delays.getD (attempt - 1) 0] else []
    let response := invoke attempt
    if response.success then
      { response := response, calls := 1, sleeps := sleepsHere }
    else
      match remaining with
      | 0 => { response := response, calls := 1, sleeps := sleepsHere }
      | r + 1 =>
        let rest := retryLoop invoke delays (attempt + 1) (r + 1)
        { response := rest.response, calls := rest.calls + 1,
          sleeps := sleepsHere ++ rest.sleeps }

/-- `prompt_claude_code_with_retry(request, max_retries=3, retry_delays=None)`
(agent.py lines 221-266): extend the delay list to max_retries entries, then
run the attempt loop (1 initial attempt + max_retries retries). -/
def prompt_claude_code_with_retry (invoke : Nat → AgentPromptResponse)
    (max_retries : Nat) (retry_delays : List Nat) : RetryOutcome :=
  let delays := extendDelays max_retries retry_delays
  retryLoop invoke delays 0 (max_retries + 1)

/- ===================================================================
   Test-resolution loop (claims C1, C9),
   from adws/adw_test.py.
   The agent is abstracted as stubs: `runStub attempt` is the response of
   `run_tests` on the given (1-based) attempt; `parse` is
   `adw_modules.utils.parse_json` (not under src), returning none when
   parsing raises; `resolveOk attempt idx` is the success flag of the
   `/resolve_failed_test` call for the idx-th failing test of that
   attempt.
   =================================================================== -/

/-- `parse_test_results(output)` (adw_test.py lines 229-243): parse the JSON
list of test results and tally passes/failures; any parse exception yields
`([], 0, 0)`. -/
def parse_test_results (parse : String → Option (List TestResult))
    (output : String) : List TestResult × Nat × Nat :=
  match parse output with
  | some results =>
      let passed_count := (results.filter (fun test => test.passed)).length
      let failed_count := results.length - passed_count
      (results, passed_count, failed_count)
  | none => ([], 0, 0)

/-- The `for idx, test in enumerate(failed_tests)` loop of
`resolve_failed_tests` (adw_test.py lines 296-365), counting resolutions the
tool reports as successful against those it does not. -/
def resolve_failed_tests_go (resolveOk : Nat → Bool) :
    Nat → List TestResult → Nat × Nat
  | _, [] => (0, 0)
  | idx, _ :: rest =>
      let (resolved, unresolved) := resolve_failed_tests_go resolveOk (idx + 1) rest
      if resolveOk idx then (resolved + 1, unresolved)
      else (resolved, unresolved + 1)

/-- `resolve_failed_tests(failed_tests, ...)`: returns
(resolved_count, unresolved_count). -/
def resolve_failed_tests (resolveOk : Nat → Bool) (failed_tests : List TestResult) :
    Nat × Nat :=
  resolve_failed_tests_go resolveOk 0 failed_tests

/-- Mutable state of the `while attempt < max_attempts` loop of
`run_tests_with_resolution`: the last parsed results and counts, and the
last test-run response (None until the first run). -/
structure TestLoopState where
  results : List TestResult
  passed_count : Nat
  failed_count : Nat
  test_response : Option AgentPromptResponse
deriving Repr, DecidableEq

/-- The loop body of `run_tests_with_resolution` (adw_test.py lines 384-458).
`gap` is `max_attempts - attempt` (the number of iterations the while guard
still admits) and is the structural fuel; the source's own exit tests are
kept verbatim: break on an unsuccessful run response (keeping the previous
results), break on zero failures, break on the final attempt, resolve
otherwise and break when zero tests were resolved.  Returns the final state
and the number of test runs performed (the final value of `attempt`). -/
def run_tests_with_resolution_go (runStub : Nat → AgentPromptResponse)
    (parse : String → Option (List TestResult))
    (resolveOk : Nat → Nat → Bool) (max_attempts : Nat) :
    Nat → Nat → TestLoopState → TestLoopState × Nat
  | 0, attempt, st => (st, attempt)
  | gap + 1, attempt, st =>
      let attempt' := attempt + 1
      let test_response := runStub attempt'
      if test_response.success = false then
        ({ st with test_response := some test_response }, attempt')
      else
        let parsed := parse_test_results parse test_response.output
        let results := parsed.1
        let passed_count := parsed.2.1
        let failed_count := parsed.2.2
        let st' : TestLoopState :=
          { results := results, passed_count := passed_count,
            failed_count := failed_count, test_response := some test_response }
        if failed_count = 0 then (st', attempt')
        else if attempt' = max_attempts then (st', attempt')
        else
          let failed_tests := results.filter (fun test => !test.passed)
          let resolved := (resolve_failed_tests (resolveOk attempt') failed_tests).1
          if resolved > 0 then
            run_tests_with_resolution_go runStub parse resolveOk max_attempts
              gap attempt' st'
          else (st', attempt')

/-- `run_tests_with_resolution(adw_id, issue_number, logger, max_attempts=4)`
(adw_test.py lines 368-474): run the suite up to max_attempts times with
per-failure resolution between runs.  Initial state: no results, no
response, attempt = 0. -/
def run_tests_with_resolution (runStub : Nat → AgentPromptResponse)
    (parse : String → Option (List TestResult))
    (resolveOk : Nat → Nat → Bool) (max_attempts : Nat) :
    TestLoopState × Nat :=
  run_tests_with_resolution_go runStub parse resolveOk max_attempts
    max_attempts 0 { results := [], passed_count := 0, failed_count := 0,
                     test_response := none }

/- ===================================================================
   Sequential E2E test execution (claim C10),
   from adws/adw_test.py lines 477-509.
   The discovered `.claude/commands/e2e/*.md` files are the input list;
   `exec1 file` is the E2ETestResult of `execute_single_e2e_test` for that
   file (that function returns a result on every path: run error and
   parse error both yield a status "failed" record, so the `if result:`
   guard in the loop always passes).
   =================================================================== -/

/-- `run_e2e_tests` loop: execute files in order, append each result, and
break immediately after the first result that is not passed. -/
def run_e2e_tests (exec1 : String → E2ETestResult) :
    List E2ETestResult → List String → List E2ETestResult
  | results, [] => results
  | results, test_file :: rest =>
      let result := exec1 test_file
      if result.passed then
        run_e2e_tests exec1 (results ++ [result]) rest
      else results ++ [result]

/- ===================================================================
   Test-ensurance classification (claim C6),
   from adws/adw_test.py lines 862-911.
   The filesystem is a map `path → Option content`; `none` covers both a
   missing file (os.path.exists false) and an unreadable one (the except
   branch also files the requirement under missing).
   =================================================================== -/

/-- A test requirement extracted from the plan; only the key read by the
classifier is modelled.  Python treats a missing key and an empty string
alike (`if not test_file: continue`). -/
structure TestRequirement where
  test_file_path : Option String
deriving Repr, DecidableEq

/-- The three classification buckets returned by `categorize_tests_fast`. -/
structure Categorized where
  missing : List TestRequirement
  obviously_broken : List TestRequirement
  needs_validation : List TestRequirement
deriving Repr, DecidableEq

/-- A word character in the sense of the regex `\w` (ASCII letters, digits,
underscore; the Python regex is unicode-aware, which is immaterial for the
properties proved here). -/
def isWordChar (c : Char) : Bool := c.isAlphanum || c == '_'

/-- `re.search(r"def test_\w+", content)`: some position starts with the
literal "def test_" (9 characters) followed by at least one word
character. -/
def hasDefTestFun : List Char → Bool
  | [] => false
  | c :: cs =>
      (("def test_".toList.isPrefixOf (c :: cs)) &&
        (match (c :: cs).drop 9 with
         | d :: _ => isWordChar d
         | [] => false))
      || hasDefTestFun cs

/-- `"assert" in content`: substring containment, as a scan for a position
where the literal "assert" starts. -/
def containsAssert : List Char → Bool
  | [] => false
  | c :: cs => ("assert".toList.isPrefixOf (c :: cs)) || containsAssert cs

/-- Whitespace in the sense of Python's default `str.strip()`. -/
def isStripChar (c : Char) : Bool :=
  c == ' ' || c == '\t' || c == '\n' || c == '\r' || c == '\x0b' || c == '\x0c'

/-- `content.strip()`: drop leading and trailing whitespace. -/
def pythonStrip (content : List Char) : List Char :=
  ((content.dropWhile isStripChar).reverse.dropWhile isStripChar).reverse

/-- The `is_broken` heuristic of `categorize_tests_fast` (adw_test.py lines
887-891): stripped content shorter than 10 characters, or no test-function
signature, or no assert keyword. -/
def is_obviously_broken (content : String) : Bool :=
  decide ((pythonStrip content.toList).length < 10)
    || !hasDefTestFun content.toList
    || !containsAssert content.toList

/-- One step of the `for req in requirements` loop of
`categorize_tests_fast`: skip requirements without a (nonempty) path, file
nonexistent paths under missing, broken content under obviously_broken, the
rest under needs_validation.  (The source also attaches the file content and
a quick analysis to the requirement; only the classification is modelled.) -/
def categorizeStep (fs : String → Option String) (result : Categorized)
    (req : TestRequirement) : Categorized :=
  match req.test_file_path with
  | none => result
  | some test_file =>
      if test_file.isEmpty then result
      else
        match fs test_file with
        | none => { result with missing := result.missing ++ [req] }
        | some content =>
            if is_obviously_broken content then
              { result with obviously_broken := result.obviously_broken ++ [req] }
            else
              { result with needs_validation :=
                  result.needs_validation ++ [req] }

/-- `categorize_tests_fast(requirements)` (adw_test.py lines 862-911). -/
def categorize_tests_fast (fs : String → Option String)
    (requirements : List TestRequirement) : Categorized :=
  requirements.foldl (categorizeStep fs)
    { missing := [], obviously_broken := [], needs_validation := [] }

/-- The classification predicate for the missing bucket. -/
def classifiesMissing (fs : String → Option String) (req : TestRequirement) :
    Bool :=
  match req.test_file_path with
  | some test_file => !test_file.isEmpty && (fs test_file).isNone
  | none => false

/-- The classification predicate for the obviously_broken bucket. -/
def classifiesBroken (fs : String → Option String) (req : TestRequirement) :
    Bool :=
  match req.test_file_path with
  | some test_file =>
      !test_file.isEmpty &&
        (match fs test_file with
         | some content => is_obviously_broken content
         | none => false)
  | none => false

/-- The classification predicate for the needs_validation bucket. -/
def classifiesNeedsValidation (fs : String → Option String)
    (req : TestRequirement) : Bool :=
  match req.test_file_path with
  | some test_file =>
      !test_file.isEmpty &&
        (match fs test_file with
         | some content => !is_obviously_broken content
         | none => false)
  | none => false

/- ===================================================================
   Test-ensurance execution and report (claim C8),
   from adws/adw_test.py lines 1122-1181 (execute_test_actions_parallel),
   1184-1320 (validate_and_fix_created_tests / attempt_test_fix) and
   1434-1444 (report construction in ensure_tests_exist_and_complete).
   Each pool task is an independent agent call; `outcome i` abstracts the
   i-th submitted task's fate (the future returned (True, path), returned
   (False, path), or raised).  `as_completed` yields futures in an
   unspecified completion order; the model processes them in submission
   order, which fixes only the order within each result bucket and none of
   the bucket membership or counts.
   =================================================================== -/

/-- Fate of one create/augment task in the worker pool. -/
inductive TaskOutcome where
  | ok : TaskOutcome
  | failure : TaskOutcome
  | exc : TaskOutcome
deriving Repr, DecidableEq

/-- The four action buckets computed by `determine_actions`. -/
structure EnsureActions where
  skip : List TestRequirement
  create : List TestRequirement
  replace : List TestRequirement
  augment : List TestRequirement
deriving Repr, DecidableEq

/-- The three result buckets of `execute_test_actions_parallel`. -/
structure ExecResults where
  created : List String
  augmented : List String
  failed : List String
deriving Repr, DecidableEq

/-- The path a task reports for its requirement:
`req.get("test_file_path")`, with the "unknown" default used by the
exception handler.  (Every actionable requirement in the pipeline carries a
path, so the success, failure and exception branches all name the same
file.) -/
def taskFile (req : TestRequirement) : String :=
  req.test_file_path.getD "unknown"

/-- The task list submitted to the pool (adw_test.py lines 1134-1140):
creates, then augments, then replaces (resubmitted as creates). -/
def ensureTasks (actions : EnsureActions) : List (String × TestRequirement) :=
  actions.create.map (fun req => ("create", req))
    ++ actions.augment.map (fun req => ("augment", req))
    ++ actions.replace.map (fun req => ("create", req))

/-- The completion-collection loop of `execute_test_actions_parallel`
(adw_test.py lines 1156-1179): a successful task files its path under
created or augmented according to its action type (any other action type
would fall to failed), a task whose call returned failure files it under
failed, and a task whose future raised files the requirement's path (default
"unknown") under failed. -/
def execGo (outcome : Nat → TaskOutcome) :
    Nat → List (String × TestRequirement) → ExecResults → ExecResults
  | _, [], results => results
  | i, (action_type, req) :: rest, results =>
      let test_file := taskFile req
      let results' : ExecResults :=
        match outcome i with
        | .ok =>
            if action_type == "create" then
              { results with created := results.created ++ [test_file] }
            else if action_type == "augment" then
              { results with augmented := results.augmented ++ [test_file] }
            else
              { results with failed := results.failed ++ [test_file] }
        | .failure => { results with failed := results.failed ++ [test_file] }
        | .exc =>
            { results with failed :=
                results.failed ++ [req.test_file_path.getD "unknown"] }
      execGo outcome (i + 1) rest results'

/-- `execute_test_actions_parallel(actions, ...)` (adw_test.py lines
1122-1181). -/
def execute_test_actions_parallel (outcome : Nat → TaskOutcome)
    (actions : EnsureActions) : ExecResults :=
  execGo outcome 0 (ensureTasks actions)
    { created := [], augmented := [], failed := [] }

/-- The `for attempt in range(1, max_attempts + 1)` loop of
`attempt_test_fix` (adw_test.py lines 1254-1320): an attempt succeeds when
the fix agent reports success and the immediate pytest re-run passes; a
failed agent call or a still-failing re-run both fall through to the next
attempt; all attempts exhausted yields False.  (The re-read of the test file
is assumed to succeed; its failure path returns False outright.) -/
def attempt_test_fix_from (respOk retestOk : Nat → Bool) :
    Nat → Nat → Bool
  | _, 0 => false
  | attempt, remaining + 1 =>
      if respOk attempt && retestOk attempt then true
      else attempt_test_fix_from respOk retestOk (attempt + 1) remaining

/-- `attempt_test_fix(test_file, ..., max_attempts)`: attempts are numbered
from 1. -/
def attempt_test_fix (respOk retestOk : Nat → Bool) (max_attempts : Nat) :
    Bool :=
  attempt_test_fix_from respOk retestOk 1 max_attempts

/-- The three buckets of `validate_and_fix_created_tests`. -/
structure ValidatedResults where
  created_and_passing : List String
  augmented_and_passing : List String
  created_but_failing : List String
deriving Repr, DecidableEq

/-- One iteration of the `for test_file in all_tests` loop of
`validate_and_fix_created_tests` (adw_test.py lines 1201-1249): classify the
file as created or augmented by membership in the created list, run pytest
(`passes`), on failure run up to max_fix_attempts fix cycles, and bucket the
file accordingly. -/
def validateStep (passes : String → Bool) (respOk retestOk : String → Nat → Bool)
    (max_fix_attempts : Nat) (created_list : List String)
    (validated : ValidatedResults) (test_file : String) : ValidatedResults :=
  let action_type := if created_list.contains test_file then "created"
    else "augmented"
  if passes test_file then
    if action_type == "created" then
      { validated with created_and_passing :=
          validated.created_and_passing ++ [test_file] }
    else
      { validated with augmented_and_passing :=
          validated.augmented_and_passing ++ [test_file] }
  else
    if attempt_test_fix (respOk test_file) (retestOk test_file)
        max_fix_attempts then
      if action_type == "created" then
        { validated with created_and_passing :=
            validated.created_and_passing ++ [test_file] }
      else
        { validated with augmented_and_passing :=
            validated.augmented_and_passing ++ [test_file] }
    else
      { validated with created_but_failing :=
          validated.created_but_failing ++ [test_file] }

/-- `validate_and_fix_created_tests(execution_results, ..., max_fix_attempts=2)`
(adw_test.py lines 1184-1251). -/
def validate_and_fix_created_tests (passes : String → Bool)
    (respOk retestOk : String → Nat → Bool) (max_fix_attempts : Nat)
    (execution_results : ExecResults) : ValidatedResults :=
  (execution_results.created ++ execution_results.augmented).foldl
    (validateStep passes respOk retestOk max_fix_attempts
      execution_results.created)
    { created_and_passing := [], augmented_and_passing := [],
      created_but_failing := [] }

/-- The report construction of `ensure_tests_exist_and_complete`
(adw_test.py lines 1434-1444); `validation_complete_count` abstracts
`len([r for r in validation_results if r.get("status") == "complete"])`. -/
def buildEnsuranceReport (requirements : List TestRequirement)
    (actions : EnsureActions) (validation_complete_count : Nat)
    (execution_results : ExecResults) (validated : ValidatedResults) :
    TestEnsuranceReport :=
  { total_required := requirements.length,
    already_complete := actions.skip.length + validation_complete_count,
    created := validated.created_and_passing.length,
    augmented := validated.augmented_and_passing.length,
    failed := validated.created_but_failing.length
      + execution_results.failed.length,
    all_passing := validated.created_but_failing.length == 0
      && execution_results.failed.length == 0 }

/- ===================================================================
   Theorems
   =================================================================== -/

/-- Claim C5: the spec and the repository's own unit tests require every
status message posted to the issue to carry the `[ADW-BOT]` marker before the
`adw_id_agent_name: message` prefix, but the local `format_issue_message`
that adw_test.py actually uses (shadowing the canonical import) omits the
marker: at the repository test's own input it produces
`3e81e604_ops: Test message` where the unit test demands
`[ADW-BOT] 3e81e604_ops: Test message`. -/
theorem adw_test_format_issue_message_drops_bot_marker :
    adw_test_format_issue_message "3e81e604" "ops" "Test message" none
      = "3e81e604_ops: Test message"
    ∧ adw_test_format_issue_message "3e81e604" "planner" "Planning started"
        (some "session-123")
      = "3e81e604_planner_session-123: Planning started"
    ∧ utils_format_issue_message "3e81e604" "ops" "Test message" none
      = "[ADW-BOT] 3e81e604_ops: Test message"
    ∧ (ADW_BOT_IDENTIFIER.data.isPrefixOf
        (adw_test_format_issue_message "3e81e604" "ops" "Test message" none).data)
      = false
    ∧ adw_test_format_issue_message "3e81e604" "ops" "Test message" none
      ≠ utils_format_issue_message "3e81e604" "ops" "Test message" none := by
  refine ⟨rfl, rfl, rfl, by decide, by decide⟩

/-- Helper: updating for a different id leaves a key's record untouched. -/
theorem updatePatternOne_lookup_ne (now : String) (tracker : Tracker)
    (m pid : String) (h : pid ≠ m) :
    updatePatternOne now tracker m pid = tracker pid := by
  simp [updatePatternOne, h]

/-- Helper: updating for a key increments its count, restamps last_seen and
keeps first_seen and status (creating the record with first_seen = now when
absent). -/
theorem updatePatternOne_lookup_eq (now : String) (tracker : Tracker)
    (pid : String) :
    updatePatternOne now tracker pid pid
      = some (match tracker pid with
          | none =>
              { count := 1, first_seen := now, last_seen := some now,
                status := "active" }
          | some r =>
              { r with count := r.count + 1, last_seen := some now }) := by
  cases htp : tracker pid <;> simp [updatePatternOne, htp]

/-- Helper: one pass of the per-match loop adds, at each key, the number of
occurrences of that key among the processed matches. -/
theorem update_pattern_tracker_count_eq (now : String) :
    ∀ (pattern_matches : List String) (tracker : Tracker) (pid : String),
      trackerCount (update_pattern_tracker now tracker pattern_matches) pid
        = trackerCount tracker pid + pattern_matches.count pid := by
  intro ms
  induction ms with
  | nil => intro tracker pid; simp [update_pattern_tracker, List.count_nil]
  | cons m rest ih =>
      intro tracker pid
      have step :
          update_pattern_tracker now tracker (m :: rest)
            = update_pattern_tracker now (updatePatternOne now tracker m) rest := by
        simp [update_pattern_tracker]
      rw [step, ih]
      by_cases h : pid = m
      · subst h
        have hc : trackerCount (updatePatternOne now tracker pid) pid
            = trackerCount tracker pid + 1 := by
          unfold trackerCount
          rw [updatePatternOne_lookup_eq]
          cases htp : tracker pid <;> simp [htp]
        rw [hc]
        simp [List.count_cons]
        omega
      · have hc : trackerCount (updatePatternOne now tracker m) pid
            = trackerCount tracker pid := by
          unfold trackerCount
          rw [updatePatternOne_lookup_ne now tracker m pid h]
        rw [hc]
        have h' : ¬ m = pid := fun hmp => h hmp.symm
        simp [List.count_cons, h']

/-- Helper: a pattern id that already has a record keeps its first_seen and
status across an update, while last_seen is restamped whenever the id occurs
among the matches. -/
theorem update_pattern_tracker_first_seen_eq (now : String) :
    ∀ (pattern_matches : List String) (tracker : Tracker) (pid : String)
      (r : PatternRecord), tracker pid = some r →
      ∃ r' : PatternRecord,
        update_pattern_tracker now tracker pattern_matches pid = some r'
        ∧ r'.first_seen = r.first_seen
        ∧ r'.status = r.status
        ∧ (pattern_matches.count pid = 0 → r'.last_seen = r.last_seen)
        ∧ (pattern_matches.count pid ≠ 0 → r'.last_seen = some now) := by
  intro ms
  induction ms with
  | nil =>
      intro tracker pid r h
      refine ⟨r, by simpa [update_pattern_tracker] using h, rfl, rfl, fun _ => rfl, ?_⟩
      intro hc
      simp [List.count_nil] at hc
  | cons m rest ih =>
      intro tracker pid r h
      have step :
          update_pattern_tracker now tracker (m :: rest)
            = update_pattern_tracker now (updatePatternOne now tracker m) rest := by
        simp [update_pattern_tracker]
      by_cases hm : pid = m
      · subst hm
        have h1 : updatePatternOne now tracker pid pid
            = some { r with count := r.count + 1, last_seen := some now } := by
          rw [updatePatternOne_lookup_eq, h]
        obtain ⟨r', hr', hfs, hst, hkeep, hlast⟩ :=
          ih (updatePatternOne now tracker pid) pid _ h1
        refine ⟨r', by rw [step]; exact hr', hfs, hst, ?_, ?_⟩
        · intro hc
          simp [List.count_cons] at hc
        · intro _
          by_cases hc : rest.count pid = 0
          · rw [hkeep hc]
          · exact hlast hc
      · have h1 : updatePatternOne now tracker m pid = some r := by
          rw [updatePatternOne_lookup_ne now tracker m pid hm]; exact h
        obtain ⟨r', hr', hfs, hst, hkeep, hlast⟩ :=
          ih (updatePatternOne now tracker m) pid r h1
        have h' : ¬ m = pid := fun hmp => hm hmp.symm
        refine ⟨r', by rw [step]; exact hr', hfs, hst, ?_, ?_⟩
        · intro hc
          refine hkeep ?_
          simpa [List.count_cons, h'] using hc
        · intro hc
          refine hlast ?_
          simpa [List.count_cons, h'] using hc

/-- Claim C7: `update_pattern_tracker` creates a record on first occurrence
(first_seen stamped once, status "active") and adds exactly one to the count
per recorded match while restamping last_seen; recording the same pattern id
in three successive calls (times t1, t2, t3) yields count 3 with first_seen
still t1 and last_seen t3; and no update ever decreases a stored count. -/
theorem update_pattern_tracker_monotone_counts
    (now : String) (tracker : Tracker) (pattern_matches : List String)
    (pid : String) (r : PatternRecord) :
    (trackerCount (update_pattern_tracker now tracker pattern_matches) pid
        = trackerCount tracker pid + pattern_matches.count pid)
    ∧ trackerCount tracker pid
        ≤ trackerCount (update_pattern_tracker now tracker pattern_matches) pid
    ∧ (tracker pid = some r →
        ∃ r' : PatternRecord,
          update_pattern_tracker now tracker pattern_matches pid = some r'
          ∧ r'.first_seen = r.first_seen ∧ r'.status = r.status
          ∧ (pattern_matches.count pid ≠ 0 → r'.last_seen = some now))
    ∧ (update_pattern_tracker "t3"
        (update_pattern_tracker "t2"
          (update_pattern_tracker "t1" emptyTracker ["p1"]) ["p1"]) ["p1"]) "p1"
      = some { count := 3, first_seen := "t1", last_seen := some "t3",
               status := "active" } := by
  refine ⟨update_pattern_tracker_count_eq now pattern_matches tracker pid, ?_, ?_, ?_⟩
  · rw [update_pattern_tracker_count_eq now pattern_matches tracker pid]
    exact Nat.le_add_right _ _
  · intro h
    obtain ⟨r', hr', hfs, hst, _, hlast⟩ :=
      update_pattern_tracker_first_seen_eq now pattern_matches tracker pid r h
    exact ⟨r', hr', hfs, hst, hlast⟩
  · rfl

/-- Witness for claim C7's theorem at a concrete tracker: a pattern id with
an existing record keeps its first_seen and gets last_seen restamped. -/
theorem update_pattern_tracker_monotone_counts_witness :
    ∃ r' : PatternRecord,
      update_pattern_tracker "t9"
        (fun k => if k == "p1" then
            some { count := 5, first_seen := "t0", last_seen := some "t4",
                   status := "active" }
          else none) ["p1"] "p1" = some r'
      ∧ r'.first_seen = "t0" ∧ r'.status = "active"
      ∧ (List.count "p1" ["p1"] ≠ 0 → r'.last_seen = some "t9") := by
  have h := update_pattern_tracker_monotone_counts "t9"
    (fun k => if k == "p1" then
        some { count := 5, first_seen := "t0", last_seen := some "t4",
               status := "active" }
      else none) ["p1"] "p1"
    { count := 5, first_seen := "t0", last_seen := some "t4", status := "active" }
  exact h.2.2.1 (by decide)

/-- Helper: the retry loop performs at most `remaining` calls. -/
theorem retryLoop_calls_le (invoke : Nat → AgentPromptResponse)
    (delays : List Nat) :
    ∀ remaining attempt, (retryLoop invoke delays attempt remaining).calls ≤ remaining := by
  intro remaining
  induction remaining with
  | zero => intro attempt; simp [retryLoop]
  | succ r ih =>
      intro attempt
      cases r with
      | zero =>
          by_cases h : (invoke attempt).success <;> simp [retryLoop, h]
      | succ r' =>
          by_cases h : (invoke attempt).success
          · simp [retryLoop, h]
          · have := ih (attempt + 1)
            simp [retryLoop, h]
            omega

/-- Helper: when every attempt fails, the retry loop consumes every
permitted attempt and returns the response of the final one. -/
theorem retryLoop_all_fail (invoke : Nat → AgentPromptResponse)
    (delays : List Nat) (hfail : ∀ i, (invoke i).success = false) :
    ∀ remaining attempt, 0 < remaining →
      (retryLoop invoke delays attempt remaining).calls = remaining
      ∧ (retryLoop invoke delays attempt remaining).response
          = invoke (attempt + remaining - 1) := by
  intro remaining
  induction remaining with
  | zero => intro attempt h; omega
  | succ r ih =>
      intro attempt _
      cases r with
      | zero => simp [retryLoop, hfail attempt]
      | succ r' =>
          obtain ⟨ihc, ihr⟩ := ih (attempt + 1) (by omega)
          constructor
          · simp [retryLoop, hfail attempt, ihc]
          · simp [retryLoop, hfail attempt]
            rw [ihr]
            congr 1
            omega

/-- Helper: the extension loop appends exactly its fuel many entries. -/
theorem extendLoop_length (k : Nat) :
    ∀ ds : List Nat, (extendDelays.extendLoop k ds).length = ds.length + k := by
  induction k with
  | zero => intro ds; simp [extendDelays.extendLoop]
  | succ k' ih =>
      intro ds
      rw [extendDelays.extendLoop, ih]
      simp
      omega

/-- Helper: the extended delay list has max(max_retries, original) entries. -/
theorem extendDelays_length (max_retries : Nat) (retry_delays : List Nat) :
    (extendDelays max_retries retry_delays).length
      = retry_delays.length + (max_retries - retry_delays.length) := by
  rw [extendDelays, extendLoop_length]

/-- Helper: the first three entries of a list of length at least 3, read via
getD, are its take-3 prefix. -/
theorem take_three_of_getD (l : List Nat) (h : 3 ≤ l.length) :
    [(l[0]?).getD 0, (l[1]?).getD 0, (l[2]?).getD 0] = l.take 3 := by
  rcases l with _ | ⟨a, _ | ⟨b, _ | ⟨c, rest⟩⟩⟩ <;> simp at h ⊢

/-- Claim C2: with the default max_retries = 3, prompt_claude_code_with_retry
calls prompt_claude_code at most 4 times (1 initial + 3 retries); it returns
immediately on the first success; when every call fails it performs all 4
calls, sleeps the successive configured delays (taken from the delay list
extended to max_retries entries) before each retry, and returns the final
call's response; and the extension appends +2-second increments exactly when
the configured list is shorter than max_retries. -/
theorem prompt_claude_code_with_retry_bound
    (invoke : Nat → AgentPromptResponse) (retry_delays : List Nat) :
    (prompt_claude_code_with_retry invoke 3 retry_delays).calls ≤ 4
    ∧ ((invoke 0).success = true →
        prompt_claude_code_with_retry invoke 3 retry_delays
          = { response := invoke 0, calls := 1, sleeps := [] })
    ∧ ((∀ i, i < 4 → (invoke i).success = false) →
        (prompt_claude_code_with_retry invoke 3 retry_delays).response = invoke 3
        ∧ (prompt_claude_code_with_retry invoke 3 retry_delays).calls = 4
        ∧ (prompt_claude_code_with_retry invoke 3 retry_delays).sleeps
            = (extendDelays 3 retry_delays).take 3)
    ∧ extendDelays 3 [1, 3, 5] = [1, 3, 5]
    ∧ extendDelays 5 [1, 3, 5] = [1, 3, 5, 7, 9] := by
  refine ⟨retryLoop_calls_le invoke _ 4 0, ?_, ?_, rfl, rfl⟩
  · intro h
    simp [prompt_claude_code_with_retry, retryLoop, h]
  · intro h
    have h0 := h 0 (by omega)
    have h1 := h 1 (by omega)
    have h2 := h 2 (by omega)
    have h3 := h 3 (by omega)
    have hlen : 3 ≤ (extendDelays 3 retry_delays).length := by
      rw [extendDelays_length]; omega
    refine ⟨?_, ?_, ?_⟩
    · simp [prompt_claude_code_with_retry, retryLoop, h0, h1, h2, h3]
    · simp [prompt_claude_code_with_retry, retryLoop, h0, h1, h2, h3]
    · simp [prompt_claude_code_with_retry, retryLoop, h0, h1, h2, h3]
      exact take_three_of_getD _ hlen

/-- Witness for claim C2's theorem at an always-failing stub: all 4 calls are
made, the sleeps are [1, 3, 5], and the final failure is returned. -/
theorem prompt_claude_code_with_retry_bound_witness :
    (prompt_claude_code_with_retry
        (fun _ => { output := "err", success := false, session_id := none })
        3 [1, 3, 5]).calls = 4
    ∧ (prompt_claude_code_with_retry
        (fun _ => { output := "err", success := false, session_id := none })
        3 [1, 3, 5]).sleeps = (extendDelays 3 [1, 3, 5]).take 3 := by
  have h := prompt_claude_code_with_retry_bound
    (fun _ => { output := "err", success := false, session_id := none }) [1, 3, 5]
  exact ⟨(h.2.2.1 (by decide)).2.1, (h.2.2.1 (by decide)).2.2⟩

/-- Claim C3 counterexample: for a world where the CLI probe fails (binary
missing or non-zero version exit), the retry wrapper does NOT skip the retry
path: with max_retries = 3 it calls prompt_claude_code 4 times, each call
returning the same not-installed failure, refuting the claim that no retry is
performed for that failure. -/
theorem prompt_claude_code_not_installed_retried :
    (prompt_claude_code_with_retry
        (fun _ => prompt_claude_code
          { claude_path := "claude", probe_ok := false, exit_code := 0,
            stderr := "", transcript := [], raw_output := "" })
        3 [1, 3, 5]).calls = 4
    ∧ (prompt_claude_code_with_retry
        (fun _ => prompt_claude_code
          { claude_path := "claude", probe_ok := false, exit_code := 0,
            stderr := "", transcript := [], raw_output := "" })
        3 [1, 3, 5]).calls ≠ 1 := by
  refine ⟨rfl, by decide⟩

/-- Claim C3 amended: when the version probe fails, prompt_claude_code
returns a failure immediately — no CLI process is spawned and the message
names the expected CLI path — but prompt_claude_code_with_retry treats this
failure like any other and still performs its max_retries retries (the
current design retries unconditionally on any failure). -/
theorem prompt_claude_code_not_installed_immediate (w : CliWorld)
    (h : w.probe_ok = false) :
    prompt_claude_code_run w
      = ({ output := "Error: Claude Code CLI is not installed. Expected at: "
             ++ w.claude_path,
           success := false, session_id := none }, 0)
    ∧ (∀ max_retries retry_delays,
        (prompt_claude_code_with_retry (fun _ => prompt_claude_code w)
            max_retries retry_delays).calls = max_retries + 1
        ∧ (prompt_claude_code_with_retry (fun _ => prompt_claude_code w)
            max_retries retry_delays).response = prompt_claude_code w) := by
  have hrun : prompt_claude_code_run w
      = ({ output := "Error: Claude Code CLI is not installed. Expected at: "
             ++ w.claude_path,
           success := false, session_id := none }, 0) := by
    simp [prompt_claude_code_run, check_claude_installed, h]
  refine ⟨hrun, ?_⟩
  intro max_retries retry_delays
  have hfail : ∀ i : Nat,
      ((fun _ => prompt_claude_code w) i : AgentPromptResponse).success = false := by
    intro i
    simp [prompt_claude_code, hrun]
  obtain ⟨hc, hr⟩ := retryLoop_all_fail (fun _ => prompt_claude_code w)
    (extendDelays max_retries retry_delays) hfail (max_retries + 1) 0 (by omega)
  exact ⟨hc, hr⟩

/-- Witness for claim C3's amended theorem at a concrete world with a failing
probe. -/
theorem prompt_claude_code_not_installed_immediate_witness :
    prompt_claude_code_run
        { claude_path := "/usr/bin/claude", probe_ok := false, exit_code := 0,
          stderr := "", transcript := [], raw_output := "" }
      = ({ output := "Error: Claude Code CLI is not installed. Expected at: /usr/bin/claude",
           success := false, session_id := none }, 0)
    ∧ (prompt_claude_code_with_retry
        (fun _ => prompt_claude_code
          { claude_path := "/usr/bin/claude", probe_ok := false, exit_code := 0,
            stderr := "", transcript := [], raw_output := "" })
        3 [1, 3, 5]).calls = 3 + 1 := by
  have h := prompt_claude_code_not_installed_immediate
    { claude_path := "/usr/bin/claude", probe_ok := false, exit_code := 0,
      stderr := "", transcript := [], raw_output := "" } rfl
  exact ⟨h.1, (h.2 3 [1, 3, 5]).1⟩

/-- Helper: find? returns the head of the filtered list. -/
theorem find?_eq_head?_filter {α : Type} (p : α → Bool) :
    ∀ l : List α, l.find? p = (l.filter p).head? := by
  intro l
  induction l with
  | nil => rfl
  | cons a l ih =>
      by_cases h : p a
      · rw [List.find?_cons_of_pos l h, List.filter_cons_of_pos h, List.head?_cons]
      · rw [List.find?_cons_of_neg l h, List.filter_cons_of_neg h, ih]

/-- Helper: scanning a list in reverse for the first match yields the last
match of the original order. -/
theorem find?_reverse_eq_getLast?_filter {α : Type} (p : α → Bool)
    (l : List α) : l.reverse.find? p = (l.filter p).getLast? := by
  rw [find?_eq_head?_filter, List.filter_reverse, List.head?_reverse]

/-- Claim C4: on zero process exit, prompt_claude_code derives its response
from the last transcript record typed "result": subtype error_during_execution
gives a failure (carrying the record's session id); otherwise success is the
negation of the record's is_error flag and the response carries the record's
result text and session id; with no result-typed record at all, the raw
transcript text is returned as a successful response. -/
theorem prompt_claude_code_result_parsing (w : CliWorld)
    (hprobe : w.probe_ok = true) (hexit : w.exit_code = 0) :
    findResultMessage w.transcript
      = (w.transcript.filter (fun m => m.type == some "result")).getLast?
    ∧ (∀ m, findResultMessage w.transcript = some m →
        (m.subtype.getD "" = "error_during_execution" →
          prompt_claude_code w
            = { output := "Error during execution: Agent encountered an error and did not return a result",
                success := false, session_id := m.session_id })
        ∧ (m.subtype.getD "" ≠ "error_during_execution" →
          prompt_claude_code w
            = { output := m.result.getD "",
                success := !(m.is_error.getD false),
                session_id := m.session_id }))
    ∧ (findResultMessage w.transcript = none →
        prompt_claude_code w
          = { output := w.raw_output, success := true, session_id := none }) := by
  refine ⟨find?_reverse_eq_getLast?_filter _ _, ?_, ?_⟩
  · intro m hm
    constructor
    · intro hsub
      simp [prompt_claude_code, prompt_claude_code_run, check_claude_installed,
        hprobe, hexit, hm, hsub]
    · intro hsub
      simp [prompt_claude_code, prompt_claude_code_run, check_claude_installed,
        hprobe, hexit, hm, hsub]
  · intro hm
    simp [prompt_claude_code, prompt_claude_code_run, check_claude_installed,
      hprobe, hexit, hm]

/-- Witness for claim C4's theorem at a concrete two-record transcript whose
last result-typed record is a non-error result carrying text and session
id. -/
theorem prompt_claude_code_result_parsing_witness :
    prompt_claude_code
        { claude_path := "claude", probe_ok := true, exit_code := 0,
          stderr := "",
          transcript :=
            [{ type := some "assistant", subtype := none, is_error := none,
               result := none, session_id := none },
             { type := some "result", subtype := some "success",
               is_error := some false, result := some "the answer",
               session_id := some "sid-1" }],
          raw_output := "raw" }
      = { output := "the answer", success := true, session_id := some "sid-1" } := by
  have h := prompt_claude_code_result_parsing
    { claude_path := "claude", probe_ok := true, exit_code := 0,
      stderr := "",
      transcript :=
        [{ type := some "assistant", subtype := none, is_error := none,
           result := none, session_id := none },
         { type := some "result", subtype := some "success",
           is_error := some false, result := some "the answer",
           session_id := some "sid-1" }],
      raw_output := "raw" } rfl rfl
  have h2 := (h.2.1
    { type := some "result", subtype := some "success",
      is_error := some false, result := some "the answer",
      session_id := some "sid-1" } (by decide)).2 (by decide)
  simpa using h2

/-- Helper: the resolution loop performs at most `gap` more runs beyond the
current attempt number. -/
theorem run_tests_with_resolution_go_runs_le
    (runStub : Nat → AgentPromptResponse)
    (parse : String → Option (List TestResult))
    (resolveOk : Nat → Nat → Bool) (max_attempts : Nat) :
    ∀ gap attempt st,
      (run_tests_with_resolution_go runStub parse resolveOk max_attempts
        gap attempt st).2 ≤ attempt + gap := by
  intro gap
  induction gap with
  | zero => intro attempt st; simp [run_tests_with_resolution_go]
  | succ g ih =>
      intro attempt st
      simp only [run_tests_with_resolution_go]
      split
      · change attempt + 1 ≤ attempt + (g + 1); omega
      · split
        · change attempt + 1 ≤ attempt + (g + 1); omega
        · split
          · change attempt + 1 ≤ attempt + (g + 1); omega
          · split
            · have := ih (attempt + 1)
                { results := (parse_test_results parse (runStub (attempt + 1)).output).1,
                  passed_count := (parse_test_results parse (runStub (attempt + 1)).output).2.1,
                  failed_count := (parse_test_results parse (runStub (attempt + 1)).output).2.2,
                  test_response := some (runStub (attempt + 1)) }
              omega
            · change attempt + 1 ≤ attempt + (g + 1); omega

/-- Helper: when the loop stops before exhausting the attempt budget, the
stop was caused by an unsuccessful run response, by a zero failure count, or
by a resolution round that resolved nothing. -/
theorem run_tests_with_resolution_go_exit
    (runStub : Nat → AgentPromptResponse)
    (parse : String → Option (List TestResult))
    (resolveOk : Nat → Nat → Bool) (max_attempts : Nat) :
    ∀ gap attempt st, attempt + gap = max_attempts →
      (run_tests_with_resolution_go runStub parse resolveOk max_attempts
          gap attempt st).2 < max_attempts →
      (∃ r, (run_tests_with_resolution_go runStub parse resolveOk max_attempts
          gap attempt st).1.test_response = some r
        ∧ (r.success = false
           ∨ (r.success = true
              ∧ ((run_tests_with_resolution_go runStub parse resolveOk
                    max_attempts gap attempt st).1.failed_count = 0
                 ∨ (resolve_failed_tests
                      (resolveOk (run_tests_with_resolution_go runStub parse
                        resolveOk max_attempts gap attempt st).2)
                      ((run_tests_with_resolution_go runStub parse resolveOk
                        max_attempts gap attempt st).1.results.filter
                          (fun test => !test.passed))).1 = 0)))) := by
  intro gap
  induction gap with
  | zero =>
      intro attempt st hsum hlt
      simp [run_tests_with_resolution_go] at hlt
      omega
  | succ g ih =>
      intro attempt st hsum hlt
      simp only [run_tests_with_resolution_go] at hlt ⊢
      by_cases hresp : (runStub (attempt + 1)).success = false
      · rw [if_pos hresp] at hlt ⊢
        exact ⟨runStub (attempt + 1), rfl, Or.inl hresp⟩
      · have hresp' : (runStub (attempt + 1)).success = true := by
          simpa using hresp
        rw [if_neg hresp] at hlt ⊢
        by_cases hfc :
            (parse_test_results parse (runStub (attempt + 1)).output).2.2 = 0
        · rw [if_pos hfc] at hlt ⊢
          exact ⟨runStub (attempt + 1), rfl, Or.inr ⟨hresp', Or.inl hfc⟩⟩
        · rw [if_neg hfc] at hlt ⊢
          by_cases hlast : attempt + 1 = max_attempts
          · rw [if_pos hlast] at hlt
            have : attempt + 1 < max_attempts := hlt
            omega
          · rw [if_neg hlast] at hlt ⊢
            by_cases hres : 0 < (resolve_failed_tests (resolveOk (attempt + 1))
                (List.filter (fun test => !test.passed)
                  (parse_test_results parse (runStub (attempt + 1)).output).1)).1
            · rw [if_pos hres] at hlt ⊢
              exact ih (attempt + 1) _ (by omega) hlt
            · rw [if_neg hres] at hlt ⊢
              refine ⟨runStub (attempt + 1), rfl, Or.inr ⟨hresp', Or.inr ?_⟩⟩
              change (resolve_failed_tests (resolveOk (attempt + 1))
                (List.filter (fun test => !test.passed)
                  (parse_test_results parse (runStub (attempt + 1)).output).1)).1 = 0
              omega

/-- Claim C1: run_tests_with_resolution invokes the test run at most
max_attempts times; an early stop (before the budget is exhausted) happens
exactly on an unsuccessful run response, a zero failure count, or a round
that resolved zero failing tests; an unsuccessful first response aborts
immediately with no results; the spec's two stub scenarios behave as stated:
two failures on attempt 1, both resolved, zero failures on attempt 2 stops
after attempt 2 with failed_count 0, and a stub resolving 0 of 3 failures
stops after attempt 1. -/
theorem run_tests_with_resolution_termination
    (runStub : Nat → AgentPromptResponse)
    (parse : String → Option (List TestResult))
    (resolveOk : Nat → Nat → Bool) (max_attempts : Nat) :
    (run_tests_with_resolution runStub parse resolveOk max_attempts).2
        ≤ max_attempts
    ∧ ((run_tests_with_resolution runStub parse resolveOk max_attempts).2
          < max_attempts →
        (∃ r, (run_tests_with_resolution runStub parse resolveOk
            max_attempts).1.test_response = some r
          ∧ (r.success = false
             ∨ (r.success = true
                ∧ ((run_tests_with_resolution runStub parse resolveOk
                      max_attempts).1.failed_count = 0
                   ∨ (resolve_failed_tests
                        (resolveOk (run_tests_with_resolution runStub parse
                          resolveOk max_attempts).2)
                        ((run_tests_with_resolution runStub parse resolveOk
                          max_attempts).1.results.filter
                            (fun test => !test.passed))).1 = 0)))))
    ∧ (0 < max_attempts → (runStub 1).success = false →
        run_tests_with_resolution runStub parse resolveOk max_attempts
          = ({ results := [], passed_count := 0, failed_count := 0,
               test_response := some (runStub 1) }, 1))
    ∧ run_tests_with_resolution
        (fun n => if n == 1 then { output := "runA1", success := true, session_id := none }
          else { output := "runA2", success := true, session_id := none })
        (fun s => if s == "runA1" then
            some [{ test_name := "t1", passed := false, error := none },
                  { test_name := "t2", passed := false, error := none }]
          else
            some [{ test_name := "t1", passed := true, error := none },
                  { test_name := "t2", passed := true, error := none }])
        (fun _ _ => true) 4
      = ({ results := [{ test_name := "t1", passed := true, error := none },
                       { test_name := "t2", passed := true, error := none }],
           passed_count := 2, failed_count := 0,
           test_response :=
             some { output := "runA2", success := true, session_id := none } }, 2)
    ∧ run_tests_with_resolution
        (fun _ => { output := "runB", success := true, session_id := none })
        (fun _ =>
          some [{ test_name := "t1", passed := false, error := none },
                { test_name := "t2", passed := false, error := none },
                { test_name := "t3", passed := false, error := none }])
        (fun _ _ => false) 4
      = ({ results := [{ test_name := "t1", passed := false, error := none },
                       { test_name := "t2", passed := false, error := none },
                       { test_name := "t3", passed := false, error := none }],
           passed_count := 0, failed_count := 3,
           test_response :=
             some { output := "runB", success := true, session_id := none } }, 1) := by
  refine ⟨?_, ?_, ?_, by decide, by decide⟩
  · have h := run_tests_with_resolution_go_runs_le runStub parse resolveOk
      max_attempts max_attempts 0
      { results := [], passed_count := 0, failed_count := 0, test_response := none }
    simpa [run_tests_with_resolution] using h
  · intro hlt
    exact run_tests_with_resolution_go_exit runStub parse resolveOk max_attempts
      max_attempts 0 _ (by omega) hlt
  · intro hpos hfail
    cases max_attempts with
    | zero => omega
    | succ m =>
        simp [run_tests_with_resolution, run_tests_with_resolution_go, hfail]

/-- Witness for claim C1's theorem: the early-stop characterization and the
immediate-abort clause at a concrete always-unsuccessful run stub. -/
theorem run_tests_with_resolution_termination_witness :
    run_tests_with_resolution
        (fun _ => { output := "tool crashed", success := false, session_id := none })
        (fun _ => none) (fun _ _ => false) 4
      = ({ results := [], passed_count := 0, failed_count := 0,
           test_response :=
             some { output := "tool crashed", success := false, session_id := none } }, 1)
    ∧ (∃ r, (run_tests_with_resolution
          (fun _ => { output := "tool crashed", success := false, session_id := none })
          (fun _ => none) (fun _ _ => false) 4).1.test_response = some r
        ∧ (r.success = false
           ∨ (r.success = true
              ∧ ((run_tests_with_resolution
                    (fun _ => { output := "tool crashed", success := false, session_id := none })
                    (fun _ => none) (fun _ _ => false) 4).1.failed_count = 0
                 ∨ (resolve_failed_tests
                      (( fun _ _ => false) (run_tests_with_resolution
                        (fun _ => { output := "tool crashed", success := false, session_id := none })
                        (fun _ => none) (fun _ _ => false) 4).2)
                      ((run_tests_with_resolution
                        (fun _ => { output := "tool crashed", success := false, session_id := none })
                        (fun _ => none) (fun _ _ => false) 4).1.results.filter
                          (fun test => !test.passed))).1 = 0)))) := by
  have h := run_tests_with_resolution_termination
    (fun _ => { output := "tool crashed", success := false, session_id := none })
    (fun _ => none) (fun _ _ => false) 4
  refine ⟨h.2.2.1 (by decide) (by decide), h.2.1 ?_⟩
  rw [h.2.2.1 (by decide) (by decide)]
  decide



/-- Claim C9: a successful run response whose output fails to parse as a
JSON list of test results yields ([], 0, 0) from parse_test_results, so
run_tests_with_resolution stops immediately after the first run with zero
recorded failures — at the loop exit indistinguishable from an all-passing
suite. -/
theorem run_tests_with_resolution_parse_failure
    (runStub : Nat → AgentPromptResponse)
    (parse : String → Option (List TestResult))
    (resolveOk : Nat → Nat → Bool) (output : String) :
    (parse output = none → parse_test_results parse output = ([], 0, 0))
    ∧ ((runStub 1).success = true → parse (runStub 1).output = none →
        run_tests_with_resolution runStub parse resolveOk 4
          = ({ results := [], passed_count := 0, failed_count := 0,
               test_response := some (runStub 1) }, 1)) := by
  constructor
  · intro h
    simp [parse_test_results, h]
  · intro hsucc hparse
    simp [run_tests_with_resolution, run_tests_with_resolution_go, hsucc,
      parse_test_results, hparse]

/-- Witness for claim C9's theorem at a concrete stub that returns success
with unparseable output. -/
theorem run_tests_with_resolution_parse_failure_witness :
    parse_test_results (fun _ => none) "not json" = ([], 0, 0)
    ∧ run_tests_with_resolution
        (fun _ => { output := "not json", success := true, session_id := none })
        (fun _ => none) (fun _ _ => false) 4
      = ({ results := [], passed_count := 0, failed_count := 0,
           test_response :=
             some { output := "not json", success := true, session_id := none } }, 1) := by
  have h := run_tests_with_resolution_parse_failure
    (fun _ => { output := "not json", success := true, session_id := none })
    (fun _ => none) (fun _ _ => false) "not json"
  exact ⟨h.1 rfl, h.2 rfl rfl⟩

/-- Helper: the E2E loop's accumulator is a prefix of its output. -/
theorem run_e2e_tests_acc (exec1 : String → E2ETestResult) :
    ∀ (files : List String) (acc : List E2ETestResult),
      run_e2e_tests exec1 acc files = acc ++ run_e2e_tests exec1 [] files := by
  intro files
  induction files with
  | nil => intro acc; simp [run_e2e_tests]
  | cons f fs ih =>
      intro acc
      by_cases h : (exec1 f).passed
      · simp only [run_e2e_tests, if_pos h, List.nil_append]
        rw [ih (acc ++ [exec1 f]), ih [exec1 f]]
        simp
      · simp only [run_e2e_tests, if_neg h, List.nil_append]

/-- Helper: one unfolding of the E2E loop from the empty accumulator. -/
theorem run_e2e_tests_cons (exec1 : String → E2ETestResult) (f : String)
    (fs : List String) :
    run_e2e_tests exec1 [] (f :: fs)
      = if (exec1 f).passed then exec1 f :: run_e2e_tests exec1 [] fs
        else [exec1 f] := by
  by_cases h : (exec1 f).passed
  · simp only [run_e2e_tests, if_pos h, List.nil_append]
    rw [run_e2e_tests_acc exec1 fs [exec1 f]]
    simp
  · simp only [run_e2e_tests, if_neg h, List.nil_append]

/-- Helper: a cons list whose tail is nonempty takes its last element from
the tail. -/
theorem getLast?_cons_of_ne {α : Type} (a : α) (l : List α) (h : l ≠ []) :
    (a :: l).getLast? = l.getLast? := by
  cases l with
  | nil => exact absurd rfl h
  | cons b t => exact List.getLast?_cons_cons

/-- Helper: the E2E loop executes a prefix of the files in order. -/
theorem run_e2e_tests_take_map (exec1 : String → E2ETestResult) :
    ∀ files : List String,
      run_e2e_tests exec1 [] files
        = (files.take (run_e2e_tests exec1 [] files).length).map exec1 := by
  intro files
  induction files with
  | nil => simp [run_e2e_tests]
  | cons f fs ih =>
      rw [run_e2e_tests_cons]
      by_cases h : (exec1 f).passed
      · rw [if_pos h]
        rw [List.length_cons, List.take_succ_cons, List.map_cons]
        rw [← ih]
      · rw [if_neg h]
        simp

/-- Helper: every E2E result except possibly the last one passed. -/
theorem run_e2e_tests_init_passed (exec1 : String → E2ETestResult) :
    ∀ (files : List String) (i : Nat) (r : E2ETestResult),
      (run_e2e_tests exec1 [] files)[i]? = some r →
      i + 1 < (run_e2e_tests exec1 [] files).length →
      r.passed = true := by
  intro files
  induction files with
  | nil => intro i r hr _; simp [run_e2e_tests] at hr
  | cons f fs ih =>
      intro i r hr hlen
      rw [run_e2e_tests_cons] at hr hlen
      by_cases h : (exec1 f).passed
      · rw [if_pos h] at hr hlen
        cases i with
        | zero =>
            simp at hr
            rw [← hr]; exact h
        | succ j =>
            simp only [List.getElem?_cons_succ] at hr
            simp only [List.length_cons] at hlen
            exact ih j r hr (by omega)
      · rw [if_neg h] at hr hlen
        simp at hlen

/-- Helper: a failing E2E result is the final element of the returned
list. -/
theorem run_e2e_tests_fail_last (exec1 : String → E2ETestResult) :
    ∀ (files : List String) (r : E2ETestResult),
      r ∈ run_e2e_tests exec1 [] files → r.passed = false →
      (run_e2e_tests exec1 [] files).getLast? = some r := by
  intro files
  induction files with
  | nil => intro r hr _; simp [run_e2e_tests] at hr
  | cons f fs ih =>
      intro r hr hfail
      rw [run_e2e_tests_cons] at hr ⊢
      by_cases h : (exec1 f).passed
      · rw [if_pos h] at hr ⊢
        rcases List.mem_cons.mp hr with hhd | htl
        · subst hhd
          rw [h] at hfail
          cases hfail
        · have hne : run_e2e_tests exec1 [] fs ≠ [] := by
            intro hnil
            rw [hnil] at htl
            cases htl
          rw [getLast?_cons_of_ne _ _ hne]
          exact ih r htl hfail
      · rw [if_neg h] at hr ⊢
        rcases List.mem_singleton.mp hr with rfl
        rfl

/-- Helper: a truncated E2E run (fewer results than files) ends in a
failure. -/
theorem run_e2e_tests_truncated (exec1 : String → E2ETestResult) :
    ∀ files : List String,
      (run_e2e_tests exec1 [] files).length < files.length →
      ∃ r, (run_e2e_tests exec1 [] files).getLast? = some r
        ∧ r.passed = false := by
  intro files
  induction files with
  | nil => intro h; simp [run_e2e_tests] at h
  | cons f fs ih =>
      intro hlen
      rw [run_e2e_tests_cons] at hlen ⊢
      by_cases h : (exec1 f).passed
      · rw [if_pos h] at hlen ⊢
        have hlt : (run_e2e_tests exec1 [] fs).length < fs.length := by
          simp at hlen
          omega
        obtain ⟨r, hr, hfail⟩ := ih hlt
        have hne : run_e2e_tests exec1 [] fs ≠ [] := by
          intro hnil
          rw [hnil] at hr
          cases hr
        exact ⟨r, by rw [getLast?_cons_of_ne _ _ hne]; exact hr, hfail⟩
      · rw [if_neg h]
        refine ⟨exec1 f, rfl, by simpa using h⟩

/-- Helper: the E2E loop returns at most one failing result. -/
theorem run_e2e_tests_at_most_one_failure (exec1 : String → E2ETestResult) :
    ∀ files : List String,
      ((run_e2e_tests exec1 [] files).filter (fun r => !r.passed)).length
        ≤ 1 := by
  intro files
  induction files with
  | nil => simp [run_e2e_tests]
  | cons f fs ih =>
      rw [run_e2e_tests_cons]
      by_cases h : (exec1 f).passed
      · rw [if_pos h]
        simpa [List.filter, h] using ih
      · rw [if_neg h]
        simp [List.filter, h]

/-- Claim C10: run_e2e_tests executes the files sequentially and stops at the
first non-passed result: the returned list is the image of a prefix of the
file list, every element before the last passed, any failing element is the
last one, at most one failure is returned, and stopping before the end of
the file list means the last result failed. -/
theorem run_e2e_tests_stops_at_first_failure (exec1 : String → E2ETestResult)
    (files : List String) :
    run_e2e_tests exec1 [] files
      = (files.take (run_e2e_tests exec1 [] files).length).map exec1
    ∧ (∀ (i : Nat) (r : E2ETestResult),
        (run_e2e_tests exec1 [] files)[i]? = some r →
        i + 1 < (run_e2e_tests exec1 [] files).length →
        r.passed = true)
    ∧ (∀ r : E2ETestResult, r ∈ run_e2e_tests exec1 [] files →
        r.passed = false →
        (run_e2e_tests exec1 [] files).getLast? = some r)
    ∧ ((run_e2e_tests exec1 [] files).filter
        (fun r => !r.passed)).length ≤ 1
    ∧ ((run_e2e_tests exec1 [] files).length < files.length →
        ∃ r, (run_e2e_tests exec1 [] files).getLast? = some r
          ∧ r.passed = false) := by
  exact ⟨run_e2e_tests_take_map exec1 files, run_e2e_tests_init_passed exec1 files,
    run_e2e_tests_fail_last exec1 files,
    run_e2e_tests_at_most_one_failure exec1 files,
    run_e2e_tests_truncated exec1 files⟩

/-- Witness for claim C10's theorem at a concrete three-file run whose second
test fails: only two results come back and the failure is last. -/
theorem run_e2e_tests_stops_at_first_failure_witness :
    run_e2e_tests
        (fun f => { test_name := f, status := if f == "b.md" then "failed" else "passed",
                    test_path := f, screenshots := [], error := none })
        [] ["a.md", "b.md", "c.md"]
      = [{ test_name := "a.md", status := "passed", test_path := "a.md",
           screenshots := [], error := none },
         { test_name := "b.md", status := "failed", test_path := "b.md",
           screenshots := [], error := none }]
    ∧ (run_e2e_tests
        (fun f => { test_name := f, status := if f == "b.md" then "failed" else "passed",
                    test_path := f, screenshots := [], error := none })
        [] ["a.md", "b.md", "c.md"]).getLast?
      = some { test_name := "b.md", status := "failed", test_path := "b.md",
               screenshots := [], error := none } := by
  have h := run_e2e_tests_stops_at_first_failure
    (fun f => { test_name := f, status := if f == "b.md" then "failed" else "passed",
                test_path := f, screenshots := [], error := none })
    ["a.md", "b.md", "c.md"]
  refine ⟨by decide, ?_⟩
  exact h.2.2.1
    { test_name := "b.md", status := "failed", test_path := "b.md",
      screenshots := [], error := none } (by decide) (by decide)

/-- Helper: the categorize fold distributes over its accumulator as three
filters. -/
theorem categorize_foldl (fs : String → Option String) :
    ∀ (requirements : List TestRequirement) (acc : Categorized),
      requirements.foldl (categorizeStep fs) acc
        = { missing := acc.missing ++ requirements.filter (classifiesMissing fs),
            obviously_broken :=
              acc.obviously_broken
                ++ requirements.filter (classifiesBroken fs),
            needs_validation :=
              acc.needs_validation
                ++ requirements.filter (classifiesNeedsValidation fs) } := by
  intro requirements
  induction requirements with
  | nil => intro acc; simp
  | cons req rest ih =>
      intro acc
      rw [List.foldl_cons, ih]
      rcases hreq : req.test_file_path with _ | tf
      · simp [categorizeStep, List.filter, classifiesMissing, classifiesBroken,
          classifiesNeedsValidation, hreq]
      · by_cases hempty : tf.isEmpty
        · simp [categorizeStep, List.filter, classifiesMissing,
            classifiesBroken, classifiesNeedsValidation, hreq, hempty]
        · rcases hfs : fs tf with _ | content
          · simp [categorizeStep, List.filter, classifiesMissing,
              classifiesBroken, classifiesNeedsValidation, hreq, hempty, hfs]
          · by_cases hbroken : is_obviously_broken content
            · simp [categorizeStep, List.filter, classifiesMissing,
                classifiesBroken, classifiesNeedsValidation, hreq, hempty,
                hfs, hbroken]
            · simp [categorizeStep, List.filter, classifiesMissing,
                classifiesBroken, classifiesNeedsValidation, hreq, hempty,
                hfs, hbroken]

/-- Claim C6: categorize_tests_fast classifies every requirement carrying a
(nonempty) test_file_path into exactly the bucket its file state dictates:
missing when the path does not exist, obviously_broken when the file exists
but its stripped content is shorter than 10 characters or lacks a
"def test_" function signature or lacks the assert keyword, and
needs_validation for every existing file that passes the heuristic.  The
three spec scenarios are checked concretely: a nonexistent path is missing,
an assert-free test file is obviously_broken, and a well-formed file is
needs_validation. -/
theorem categorize_tests_fast_classification (fs : String → Option String)
    (requirements : List TestRequirement) :
    (categorize_tests_fast fs requirements).missing
        = requirements.filter (classifiesMissing fs)
    ∧ (categorize_tests_fast fs requirements).obviously_broken
        = requirements.filter (classifiesBroken fs)
    ∧ (categorize_tests_fast fs requirements).needs_validation
        = requirements.filter (classifiesNeedsValidation fs)
    ∧ (∀ content : String,
        is_obviously_broken content
          = (decide ((pythonStrip content.toList).length < 10)
              || !hasDefTestFun content.toList
              || !containsAssert content.toList))
    ∧ categorize_tests_fast
        (fun p => if p == "tests/test_good.py" then
            some "def test_a():\n    assert 1 == 1\n"
          else if p == "tests/test_noassert.py" then
            some "def test_a():\n    return 1\n"
          else none)
        [{ test_file_path := some "tests/test_missing.py" },
         { test_file_path := some "tests/test_noassert.py" },
         { test_file_path := some "tests/test_good.py" }]
      = { missing := [{ test_file_path := some "tests/test_missing.py" }],
          obviously_broken :=
            [{ test_file_path := some "tests/test_noassert.py" }],
          needs_validation :=
            [{ test_file_path := some "tests/test_good.py" }] } := by
  have h := categorize_foldl fs requirements
    { missing := [], obviously_broken := [], needs_validation := [] }
  refine ⟨?_, ?_, ?_, fun _ => rfl, by decide⟩
  · rw [categorize_tests_fast, h]; simp
  · rw [categorize_tests_fast, h]; simp
  · rw [categorize_tests_fast, h]; simp

/-- Helper: every pool task adds exactly one path to exactly one result
bucket. -/
theorem execGo_length (outcome : Nat → TaskOutcome) :
    ∀ (tasks : List (String × TestRequirement)) (i : Nat)
      (results : ExecResults),
      (execGo outcome i tasks results).created.length
          + (execGo outcome i tasks results).augmented.length
          + (execGo outcome i tasks results).failed.length
        = results.created.length + results.augmented.length
          + results.failed.length + tasks.length := by
  intro tasks
  induction tasks with
  | nil => intro i results; simp [execGo]
  | cons t rest ih =>
      intro i results
      obtain ⟨action_type, req⟩ := t
      simp only [execGo]
      cases houtcome : outcome i
      · by_cases hcreate : action_type == "create"
        · rw [if_pos hcreate]
          rw [ih]
          simp
          omega
        · rw [if_neg hcreate]
          by_cases haug : action_type == "augment"
          · rw [if_pos haug]
            rw [ih]
            simp
            omega
          · rw [if_neg haug]
            rw [ih]
            simp
            omega
      · rw [ih]
        simp
        omega
      · rw [ih]
        simp
        omega

/-- Helper: paths already filed under failed stay there. -/
theorem execGo_failed_mono (outcome : Nat → TaskOutcome) :
    ∀ (tasks : List (String × TestRequirement)) (i : Nat)
      (results : ExecResults) (x : String),
      x ∈ results.failed → x ∈ (execGo outcome i tasks results).failed := by
  intro tasks
  induction tasks with
  | nil => intro i results x hx; simpa [execGo] using hx
  | cons t rest ih =>
      intro i results x hx
      obtain ⟨action_type, req⟩ := t
      simp only [execGo]
      cases houtcome : outcome i
      · by_cases hcreate : action_type == "create"
        · rw [if_pos hcreate]
          exact ih _ _ x hx
        · rw [if_neg hcreate]
          by_cases haug : action_type == "augment"
          · rw [if_pos haug]
            exact ih _ _ x hx
          · rw [if_neg haug]
            exact ih _ _ x (by simp; exact Or.inl hx)
      · exact ih _ _ x (by simp; exact Or.inl hx)
      · exact ih _ _ x (by simp; exact Or.inl hx)

/-- Helper: a task whose outcome is not success files its path under
failed, wherever it sits in the submission order. -/
theorem execGo_failure_mem (outcome : Nat → TaskOutcome) :
    ∀ (tasks : List (String × TestRequirement)) (i : Nat)
      (results : ExecResults) (k : Nat) (hk : k < tasks.length),
      outcome (i + k) ≠ TaskOutcome.ok →
      taskFile (tasks.get ⟨k, hk⟩).2 ∈ (execGo outcome i tasks results).failed := by
  intro tasks
  induction tasks with
  | nil => intro i results k hk; simp at hk
  | cons t rest ih =>
      intro i results k hk hfail
      obtain ⟨action_type, req⟩ := t
      cases k with
      | zero =>
          simp only [Nat.add_zero] at hfail
          simp only [List.get, execGo]
          cases houtcome : outcome i
          · exact absurd houtcome hfail
          · refine execGo_failed_mono outcome rest (i + 1) _ _ ?_
            simp [taskFile]
          · refine execGo_failed_mono outcome rest (i + 1) _ _ ?_
            simp [taskFile]
      | succ k' =>
          have hshift : i + (k' + 1) = (i + 1) + k' := by omega
          rw [hshift] at hfail
          simp only [List.get, execGo]
          cases houtcome : outcome i
          · by_cases hcreate : action_type == "create"
            · rw [if_pos hcreate]
              exact ih (i + 1) _ k' (by simpa using hk) hfail
            · rw [if_neg hcreate]
              by_cases haug : action_type == "augment"
              · rw [if_pos haug]
                exact ih (i + 1) _ k' (by simpa using hk) hfail
              · rw [if_neg haug]
                exact ih (i + 1) _ k' (by simpa using hk) hfail
          · exact ih (i + 1) _ k' (by simpa using hk) hfail
          · exact ih (i + 1) _ k' (by simpa using hk) hfail

/-- Helper: one validation step appends the file to created_but_failing
exactly when the initial run fails and every fix cycle fails; otherwise that
bucket is untouched. -/
theorem validateStep_created_but_failing (passes : String → Bool)
    (respOk retestOk : String → Nat → Bool) (max_fix_attempts : Nat)
    (created_list : List String) (validated : ValidatedResults)
    (test_file : String) :
    (validateStep passes respOk retestOk max_fix_attempts created_list
        validated test_file).created_but_failing
      = if !passes test_file
            && !attempt_test_fix (respOk test_file) (retestOk test_file)
                max_fix_attempts then
          validated.created_but_failing ++ [test_file]
        else validated.created_but_failing := by
  by_cases hp : passes test_file
  · by_cases hc : test_file ∈ created_list <;>
      simp [validateStep, hp, hc]
  · simp only [Bool.not_eq_true] at hp
    by_cases hfix : attempt_test_fix (respOk test_file) (retestOk test_file)
        max_fix_attempts
    · by_cases hc : test_file ∈ created_list <;>
        simp [validateStep, hp, hfix, hc]
    · simp only [Bool.not_eq_true] at hfix
      simp [validateStep, hp, hfix]

/-- Helper: the validation fold collects exactly the unfixable failing files
into created_but_failing. -/
theorem validate_foldl (passes : String → Bool)
    (respOk retestOk : String → Nat → Bool) (max_fix_attempts : Nat)
    (created_list : List String) :
    ∀ (all_tests : List String) (acc : ValidatedResults),
      (all_tests.foldl
          (validateStep passes respOk retestOk max_fix_attempts created_list)
          acc).created_but_failing
        = acc.created_but_failing
            ++ all_tests.filter (fun test_file =>
                !passes test_file
                  && !attempt_test_fix (respOk test_file) (retestOk test_file)
                      max_fix_attempts) := by
  intro all_tests
  induction all_tests with
  | nil => intro acc; simp
  | cons f rest ih =>
      intro acc
      rw [List.foldl_cons, ih]
      by_cases hsel : (!passes f
          && !attempt_test_fix (respOk f) (retestOk f) max_fix_attempts) = true
      · have hstep := validateStep_created_but_failing passes respOk retestOk
          max_fix_attempts created_list acc f
        rw [if_pos hsel] at hstep
        rw [hstep]
        simp [List.filter_cons, hsel]
      · have hstep := validateStep_created_but_failing passes respOk retestOk
          max_fix_attempts created_list acc f
        rw [if_neg hsel] at hstep
        rw [hstep]
        simp [List.filter_cons, hsel]

/-- Claim C8: in the test-ensurance pipeline a single file's failure never
aborts the batch: every submitted create/augment/replace task lands in
exactly one bucket (so the others still execute), a task that does not
succeed files its path under failed, a created or augmented file whose tests
fail and whose bounded fix attempts all fail lands in created_but_failing,
the report's failed tally is the sum of the execution-failure and
created-but-failing lists, and all_passing holds exactly when both lists are
empty. -/
theorem test_ensurance_batch_failures (outcome : Nat → TaskOutcome)
    (actions : EnsureActions) (passes : String → Bool)
    (respOk retestOk : String → Nat → Bool)
    (requirements : List TestRequirement) (validation_complete_count : Nat) :
    (execute_test_actions_parallel outcome actions).created.length
        + (execute_test_actions_parallel outcome actions).augmented.length
        + (execute_test_actions_parallel outcome actions).failed.length
      = (ensureTasks actions).length
    ∧ (∀ (k : Nat) (hk : k < (ensureTasks actions).length),
        outcome k ≠ TaskOutcome.ok →
        taskFile ((ensureTasks actions).get ⟨k, hk⟩).2
          ∈ (execute_test_actions_parallel outcome actions).failed)
    ∧ (validate_and_fix_created_tests passes respOk retestOk 2
          (execute_test_actions_parallel outcome actions)).created_but_failing
      = ((execute_test_actions_parallel outcome actions).created
            ++ (execute_test_actions_parallel outcome actions).augmented).filter
          (fun test_file =>
            !passes test_file
              && !attempt_test_fix (respOk test_file) (retestOk test_file) 2)
    ∧ (buildEnsuranceReport requirements actions validation_complete_count
          (execute_test_actions_parallel outcome actions)
          (validate_and_fix_created_tests passes respOk retestOk 2
            (execute_test_actions_parallel outcome actions))).failed
      = (validate_and_fix_created_tests passes respOk retestOk 2
            (execute_test_actions_parallel outcome actions)).created_but_failing.length
        + (execute_test_actions_parallel outcome actions).failed.length
    ∧ ((buildEnsuranceReport requirements actions validation_complete_count
          (execute_test_actions_parallel outcome actions)
          (validate_and_fix_created_tests passes respOk retestOk 2
            (execute_test_actions_parallel outcome actions))).all_passing = true
        ↔ ((validate_and_fix_created_tests passes respOk retestOk 2
              (execute_test_actions_parallel outcome actions)).created_but_failing
            = []
          ∧ (execute_test_actions_parallel outcome actions).failed = [])) := by
  refine ⟨?_, ?_, ?_, rfl, ?_⟩
  · have h := execGo_length outcome (ensureTasks actions) 0
      { created := [], augmented := [], failed := [] }
    simpa [execute_test_actions_parallel] using h
  · intro k hk hfail
    have h := execGo_failure_mem outcome (ensureTasks actions) 0
      { created := [], augmented := [], failed := [] } k hk
      (by simpa using hfail)
    simpa [execute_test_actions_parallel] using h
  · have h := validate_foldl passes respOk retestOk 2
      (execute_test_actions_parallel outcome actions).created
      ((execute_test_actions_parallel outcome actions).created
        ++ (execute_test_actions_parallel outcome actions).augmented)
      { created_and_passing := [], augmented_and_passing := [],
        created_but_failing := [] }
    simpa [validate_and_fix_created_tests] using h
  · simp [buildEnsuranceReport, Bool.and_eq_true, List.length_eq_zero]

/-- Witness for claim C8's theorem at a concrete two-task batch whose first
task fails outright and whose second yields a file that fails validation and
both fix cycles: the failing files are tallied, the surviving task still ran,
and all_passing is cleared. -/
theorem test_ensurance_batch_failures_witness :
    taskFile ((ensureTasks
        { skip := [], create := [{ test_file_path := some "tests/a.py" }],
          replace := [],
          augment := [{ test_file_path := some "tests/b.py" }] }).get
        ⟨0, by decide⟩).2
      ∈ (execute_test_actions_parallel
          (fun i => if i == 0 then TaskOutcome.failure else TaskOutcome.ok)
          { skip := [], create := [{ test_file_path := some "tests/a.py" }],
            replace := [],
            augment := [{ test_file_path := some "tests/b.py" }] }).failed
    ∧ ((buildEnsuranceReport [] 
          { skip := [], create := [{ test_file_path := some "tests/a.py" }],
            replace := [],
            augment := [{ test_file_path := some "tests/b.py" }] } 0
          (execute_test_actions_parallel
            (fun i => if i == 0 then TaskOutcome.failure else TaskOutcome.ok)
            { skip := [], create := [{ test_file_path := some "tests/a.py" }],
              replace := [],
              augment := [{ test_file_path := some "tests/b.py" }] })
          (validate_and_fix_created_tests (fun f => !(f == "tests/b.py"))
            (fun _ _ => false) (fun _ _ => false) 2
            (execute_test_actions_parallel
              (fun i => if i == 0 then TaskOutcome.failure else TaskOutcome.ok)
              { skip := [], create := [{ test_file_path := some "tests/a.py" }],
                replace := [],
                augment := [{ test_file_path := some "tests/b.py" }] }))).all_passing
        = true
      ↔ ((validate_and_fix_created_tests (fun f => !(f == "tests/b.py"))
            (fun _ _ => false) (fun _ _ => false) 2
            (execute_test_actions_parallel
              (fun i => if i == 0 then TaskOutcome.failure else TaskOutcome.ok)
              { skip := [], create := [{ test_file_path := some "tests/a.py" }],
                replace := [],
                augment := [{ test_file_path := some "tests/b.py" }] })).created_but_failing
          = []
        ∧ (execute_test_actions_parallel
            (fun i => if i == 0 then TaskOutcome.failure else TaskOutcome.ok)
            { skip := [], create := [{ test_file_path := some "tests/a.py" }],
              replace := [],
              augment := [{ test_file_path := some "tests/b.py" }] }).failed
          = [])) := by
  have h := test_ensurance_batch_failures
    (fun i => if i == 0 then TaskOutcome.failure else TaskOutcome.ok)
    { skip := [], create := [{ test_file_path := some "tests/a.py" }],
      replace := [],
      augment := [{ test_file_path := some "tests/b.py" }] }
    (fun f => !(f == "tests/b.py")) (fun _ _ => false) (fun _ _ => false)
    [] 0
  exact ⟨h.2.1 0 (by decide) (by decide), h.2.2.2.2⟩
